import Mathlib

/-!
Verification of the AI backend layer of wagtail-vector-index.

Shallow embedding of:
- `src/wagtail_vector_index/ai_utils/backends/litellm.py`
  (streaming response normalizer, chat backend, embedding backend,
  backend configuration resolution)
- `src/wagtail_vector_index/utils.py` (`get_base_concrete_model`)

Python raw provider values are modelled as explicit structures; the
external litellm client functions (`completion`, `embedding`,
`get_model_info`) are modelled as function parameters, since they are
collaborators outside the repository.  Exceptions are modelled as
constructors of explicit result types: `StopIteration`,
`StopAsyncIteration` and the assertion failures on malformed provider
shapes each get their own tag.
-/

namespace WagtailVectorIndex

/-! ## Raw streaming shapes (litellm chunk objects) -/

/-- The `delta` field of a streaming choice; `content` may be `None`
(modelled `none`) or a string (possibly empty). -/
structure Delta where
  content : Option String
deriving Repr, DecidableEq

/-- A `litellm.utils.StreamingChoices` object: its `index` and `delta`. -/
structure StreamingChoices where
  index : Nat
  delta : Delta
deriving Repr, DecidableEq

/-- One raw streaming chunk from the provider: its list of choices. -/
structure RawStreamChunk where
  choices : List StreamingChoices
deriving Repr, DecidableEq

/-- `AIResponseStreamingPart`: the normalized `{index, content}` part. -/
structure AIResponseStreamingPart where
  index : Nat
  content : String
deriving Repr, DecidableEq

/-- Outcome of `LiteLLMStreamingAIResponse._build_chunk` on one raw chunk:
either a part, or the `StopIteration` it raises when the delta content is
falsy (`None` or `""`), or a contract violation (empty `choices` list /
failed shape assertion). -/
inductive BuildChunkResult
  | part (p : AIResponseStreamingPart)
  | stopIteration
  | contractViolation
deriving Repr, DecidableEq

/-- Embedding of `LiteLLMStreamingAIResponse._build_chunk`:
reads `response.choices[0]`, takes `choice.delta.content`;
`if not content: raise StopIteration`; otherwise returns
`{"index": index, "content": content}`. -/
def build_chunk (response : RawStreamChunk) : BuildChunkResult :=
  match response.choices with
  | [] => .contractViolation
  | choice :: _ =>
      match choice.delta.content with
      | none => .stopIteration
      | some content =>
          if content = "" then .stopIteration
          else .part { index := choice.index, content := content }

/-- `LiteLLMStreamingAIResponse`: wraps the underlying stream.  The raw
stream cursor is modelled as the list of chunks not yet pulled. -/
structure LiteLLMStreamingAIResponse where
  stream_wrapper : List RawStreamChunk
deriving Repr, DecidableEq

/-- Outcome of one `__anext__` call: a part, the `StopAsyncIteration`
end-of-sequence signal, or a contract violation. -/
inductive AnextResult
  | part (p : AIResponseStreamingPart)
  | stopAsyncIteration
  | contractViolation
deriving Repr, DecidableEq

namespace LiteLLMStreamingAIResponse

/-- Embedding of `__next__`: pulls one chunk from the underlying stream
(`StopIteration` on exhaustion) and runs `_build_chunk` on it.  Returns the
outcome together with the advanced instance (shared cursor moved by one). -/
def next (self : LiteLLMStreamingAIResponse) :
    BuildChunkResult × LiteLLMStreamingAIResponse :=
  match self.stream_wrapper with
  | [] => (.stopIteration, ⟨[]⟩)
  | c :: rest => (build_chunk c, ⟨rest⟩)

/-- Embedding of `__anext__`: awaits one chunk from the underlying stream
(`StopAsyncIteration` on exhaustion), runs `_build_chunk`, and converts a
`StopIteration` raised there into `StopAsyncIteration`
(`except StopIteration as e: raise StopAsyncIteration from e`). -/
def anext (self : LiteLLMStreamingAIResponse) :
    AnextResult × LiteLLMStreamingAIResponse :=
  match self.stream_wrapper with
  | [] => (.stopAsyncIteration, ⟨[]⟩)
  | c :: rest =>
      (match build_chunk c with
       | .part p => .part p
       | .stopIteration => .stopAsyncIteration
       | .contractViolation => .contractViolation,
       ⟨rest⟩)

end LiteLLMStreamingAIResponse

/-- Why a consumption loop over the normalizer stopped: the underlying
stream's natural exhaustion, an end-of-sequence signal produced from an
empty/absent delta, or a propagated contract violation. -/
inductive StreamTermination
  | exhausted
  | emptyDelta
  | contractViolation
deriving Repr, DecidableEq

/-- Synchronous consumption (a `for` loop over `__next__`): collects parts
until `StopIteration`, which `__next__` raises both on the underlying
stream's exhaustion and on a chunk whose delta content is falsy; a failed
shape assertion propagates as an error. -/
def syncConsume : List RawStreamChunk →
    List AIResponseStreamingPart × StreamTermination
  | [] => ([], .exhausted)
  | c :: rest =>
      match build_chunk c with
      | .part p =>
          let r := syncConsume rest
          (p :: r.1, r.2)
      | .stopIteration => ([], .emptyDelta)
      | .contractViolation => ([], .contractViolation)

/-- Asynchronous consumption (an `async for` loop over `__anext__`):
collects parts until `StopAsyncIteration`.  `__anext__` produces
`StopAsyncIteration` both on the underlying stream's exhaustion and —
through its `except StopIteration` handler — on a chunk whose delta
content is falsy. -/
def asyncConsume : List RawStreamChunk →
    List AIResponseStreamingPart × StreamTermination
  | [] => ([], .exhausted)
  | c :: rest =>
      match build_chunk c with
      | .part p =>
          let r := asyncConsume rest
          (p :: r.1, r.2)
      | .stopIteration => ([], .emptyDelta)
      | .contractViolation => ([], .contractViolation)

/-- A one-choice chunk whose delta content is the given optional string. -/
def mkChunk (oc : Option String) : RawStreamChunk :=
  ⟨[{ index := 0, delta := { content := oc } }]⟩

/-! ## Non-streaming chat response shapes and `build_ai_response` -/

/-- The `message` object of a completed chat choice. -/
structure ChoiceMessage where
  content : String
deriving Repr, DecidableEq

/-- One choice of a completed (non-streaming) litellm model response. -/
structure ChatChoice where
  message : ChoiceMessage
deriving Repr, DecidableEq

/-- The raw result of `litellm.completion` / `litellm.acompletion`,
as a closed variant: a `litellm.CustomStreamWrapper`, a plain generator
(substituted e.g. when `mock_response` is used), or a completed model
response carrying its choices.  The first two are the shapes the source
detects with `type(response) == litellm.CustomStreamWrapper` and
`inspect.isgenerator(response)` respectively. -/
inductive RawChatResponse
  | customStreamWrapper (chunks : List RawStreamChunk)
  | generator (chunks : List RawStreamChunk)
  | modelResponse (choices : List ChatChoice)
deriving Repr, DecidableEq

/-- `AIResponse`: the immutable non-streaming response holding the ordered
candidate contents. -/
structure AIResponse where
  choices : List String
deriving Repr, DecidableEq

/-- What `build_ai_response` returns: a streaming normalizer or an
`AIResponse`. -/
inductive BuiltAIResponse
  | streaming (r : LiteLLMStreamingAIResponse)
  | completed (r : AIResponse)
deriving Repr, DecidableEq

/-- The raw-shape classification performed by `build_ai_response`:
`type(response) == litellm.CustomStreamWrapper or
inspect.isgenerator(response)`. -/
def isStreamingShape : RawChatResponse → Bool
  | .customStreamWrapper _ => true
  | .generator _ => true
  | .modelResponse _ => false

/-- Whether a built response is the streaming wrapper. -/
def BuiltAIResponse.isStreaming : BuiltAIResponse → Bool
  | .streaming _ => true
  | .completed _ => false

/-- Embedding of `build_ai_response`: a `CustomStreamWrapper` or a plain
generator is wrapped in `LiteLLMStreamingAIResponse`; anything else becomes
`AIResponse(choices=[choice["message"]["content"] for choice in
response.choices])`. -/
def build_ai_response : RawChatResponse → BuiltAIResponse
  | .customStreamWrapper chunks => .streaming ⟨chunks⟩
  | .generator chunks => .streaming ⟨chunks⟩
  | .modelResponse choices =>
      .completed ⟨choices.map (fun choice => choice.message.content)⟩

/-! ## Python dict semantics for the parameter merge -/

/-- Python dict key lookup on an association list (keys unique in any list
built from a Python dict; lookup takes the first match). -/
def dictLookup (k : String) : List (String × α) → Option α
  | [] => none
  | (k', v) :: rest => if k = k' then some v else dictLookup k rest

/-- Embedding of the Python expression `{**a, **b}` (shallow merge, keys of
`b` winning on conflict): the keys of `a` in order with their values
overridden by `b` where present, followed by the keys of `b` not in `a`. -/
def dict_merge (a b : List (String × α)) : List (String × α) :=
  a.map (fun kv => (kv.1, (dictLookup kv.1 b).getD kv.2)) ++
    b.filter (fun kv => (dictLookup kv.1 a).isNone)

/-! ## Chat backend -/

/-- One chat message (role + content), opaque to the backend. -/
structure ChatMessage where
  role : String
  content : String
deriving Repr, DecidableEq

/-- `LiteLLMChatBackendConfig`, restricted to the fields the chat call
reads: `model_id` and `default_parameters`.  Parameter values are opaque
(`α`). -/
structure LiteLLMChatBackendConfig (α : Type) where
  model_id : String
  default_parameters : List (String × α)
deriving Repr, DecidableEq

/-- The invocation `chat`/`achat` makes of `litellm.completion` /
`litellm.acompletion`: `model=..., messages=..., stream=..., **parameters`. -/
structure ProviderCall (α : Type) where
  model : String
  messages : List ChatMessage
  stream : Bool
  parameters : List (String × α)
deriving Repr, DecidableEq

/-- `LiteLLMChatBackend`: holds its config. -/
structure LiteLLMChatBackend (α : Type) where
  config : LiteLLMChatBackendConfig α
deriving Repr, DecidableEq

namespace LiteLLMChatBackend

/-- Embedding of `LiteLLMChatBackend.chat`: builds
`parameters = {**self.config.default_parameters, **kwargs}`, calls the
provider with `(model, messages, stream, parameters)` and classifies the
raw result with `build_ai_response`.  The provider call made and the
backend state after the call are returned alongside the response. -/
def chat (self : LiteLLMChatBackend α)
    (provider : ProviderCall α → RawChatResponse)
    (messages : List ChatMessage) (stream : Bool)
    (kwargs : List (String × α)) :
    BuiltAIResponse × ProviderCall α × LiteLLMChatBackend α :=
  let parameters := dict_merge self.config.default_parameters kwargs
  let call : ProviderCall α :=
    { model := self.config.model_id, messages := messages,
      stream := stream, parameters := parameters }
  (build_ai_response (provider call), call, self)

/-- Embedding of `LiteLLMChatBackend.achat`: identical to `chat` except
that the provider call is awaited (`litellm.acompletion`). -/
def achat (self : LiteLLMChatBackend α)
    (provider : ProviderCall α → RawChatResponse)
    (messages : List ChatMessage) (stream : Bool)
    (kwargs : List (String × α)) :
    BuiltAIResponse × ProviderCall α × LiteLLMChatBackend α :=
  let parameters := dict_merge self.config.default_parameters kwargs
  let call : ProviderCall α :=
    { model := self.config.model_id, messages := messages,
      stream := stream, parameters := parameters }
  (build_ai_response (provider call), call, self)

end LiteLLMChatBackend

/-! ## Embedding backend -/

/-- One entry of the raw embedding response's `data` list: its
`"embedding"` vector.  Vector components are opaque (`α`, floats in the
source). -/
structure EmbeddingData (α : Type) where
  embedding : List α
deriving Repr, DecidableEq

/-- The raw `litellm.types.utils.EmbeddingResponse`: its `data` list.
The `assert isinstance(response, EmbeddingResponse)` of the source is
discharged by this type. -/
structure EmbeddingResponse (α : Type) where
  data : List (EmbeddingData α)
deriving Repr, DecidableEq

namespace LiteLLMEmbeddingBackend

/-- Embedding of `LiteLLMEmbeddingBackend.embed`: calls the provider
(`litellm.embedding`, with the configured model and extra parameters bound
into `provider`) on `inputs` and yields
`[data["embedding"] for data in response["data"]]`. -/
def embed (provider : List String → EmbeddingResponse α)
    (inputs : List String) : List (List α) :=
  ((provider inputs).data).map (fun d => d.embedding)

/-- Embedding of `LiteLLMEmbeddingBackend.aembed`: awaits the provider
(`litellm.aembedding`) and returns
`iter([data["embedding"] for data in response["data"]])` materialized. -/
def aembed (provider : List String → EmbeddingResponse α)
    (inputs : List String) : List (List α) :=
  ((provider inputs).data).map (fun d => d.embedding)

end LiteLLMEmbeddingBackend

/-! ## Backend configuration resolution -/

/-- The provider metadata record returned by `litellm.get_model_info`:
the two fields the configuration reads, each possibly absent (`none` when
the key is not in the mapping).  A falsy present value is `some 0`. -/
structure ModelInfo where
  max_input_tokens : Option Nat
  output_vector_size : Option Nat
deriving Repr, DecidableEq

/-- Outcome of a configuration resolution: the resolved value, or the
`ImproperlyConfigured` error instructing the operator to set the value
explicitly. -/
inductive ConfigResolution
  | ok (value : Nat)
  | improperlyConfigured
deriving Repr, DecidableEq

/-- Embedding of `LiteLLMBackendConfigMixin._get_token_limit`: queries
`litellm.get_model_info` (a parameter, `none` when the provider has no
metadata for the model) and raises `ImproperlyConfigured` when
`not model_info or "max_input_tokens" not in model_info or
not model_info["max_input_tokens"]`; otherwise returns
`model_info["max_input_tokens"]`. -/
def get_token_limit (get_model_info : String → Option ModelInfo)
    (model_id : String) : ConfigResolution :=
  match get_model_info model_id with
  | none => .improperlyConfigured
  | some model_info =>
      match model_info.max_input_tokens with
      | none => .improperlyConfigured
      | some v => if v = 0 then .improperlyConfigured else .ok v

/-- Embedding of
`LiteLLMEmbeddingBackendConfig._get_embedding_output_dimensions`:
symmetric to `get_token_limit`, reading `output_vector_size`. -/
def get_embedding_output_dimensions
    (get_model_info : String → Option ModelInfo)
    (model_id : String) : ConfigResolution :=
  match get_model_info model_id with
  | none => .improperlyConfigured
  | some model_info =>
      match model_info.output_vector_size with
      | none => .improperlyConfigured
      | some v => if v = 0 then .improperlyConfigured else .ok v

/-! ## Identity resolver (`utils.get_base_concrete_model`) -/

/-- Embedding of `get_base_concrete_model`: reads
`model_class._meta.get_parent_list()` (a parameter: the list of concrete
ancestors of a type, ordered most-derived first, most-base last) and
returns `parents[-1]` when the list is non-empty, else `model_class`
itself. -/
def get_base_concrete_model (get_parent_list : α → List α)
    (model_class : α) : α :=
  match get_parent_list model_class with
  | [] => model_class
  | p :: ps => (p :: ps).getLast (List.cons_ne_nil p ps)

/-- A provider returning a single vector regardless of the number of
inputs: a successful, well-typed provider call whose vector count does not
match the input count. -/
def oneVectorProvider : List String → EmbeddingResponse Int :=
  fun _ => { data := [{ embedding := [42] }] }

/-- A concrete multi-table-inheritance hierarchy: `BookPage` inherits
directly from `Page`; `FilmPage` inherits from `SpecialPage` which
inherits from `Page`; `VideoGame` has no stored parents. -/
def pageParents : String → List String := fun t =>
  if t = "BookPage" then ["Page"]
  else if t = "FilmPage" then ["SpecialPage", "Page"]
  else []

/-! ## Theorems: streaming response normalizer -/

/-- C1 counterexample: fed raw chunks with deltas "a", "", "b" followed by
exhaustion, asynchronous consumption yields only "a" and terminates at the
empty delta — not "a" then "b" at true exhaustion as claimed. -/
theorem async_consume_stops_at_empty_delta_counterexample :
    asyncConsume [mkChunk (some "a"), mkChunk (some ""), mkChunk (some "b")] =
      ([{ index := 0, content := "a" }], .emptyDelta) ∧
    (asyncConsume
        [mkChunk (some "a"), mkChunk (some ""), mkChunk (some "b")]).1 ≠
      [{ index := 0, content := "a" }, { index := 0, content := "b" }] := by
  constructor
  · rfl
  · decide

/-- C1 (amended): the asynchronous iteration path terminates both on the
underlying iterator's natural exhaustion and on a chunk with empty/absent
delta content — `__anext__` converts the `StopIteration` raised by
`_build_chunk` into `StopAsyncIteration`, so asynchronous consumption
behaves exactly like synchronous consumption; in particular, fed deltas
"a", "", "b" followed by exhaustion it yields "a" and then terminates. -/
theorem async_consume_matches_sync_consume :
    (∀ chunks : List RawStreamChunk, asyncConsume chunks = syncConsume chunks) ∧
    (∀ (c : RawStreamChunk) (rest : List RawStreamChunk),
      build_chunk c = .stopIteration →
      (LiteLLMStreamingAIResponse.anext ⟨c :: rest⟩).1 = .stopAsyncIteration) ∧
    asyncConsume [mkChunk (some "a"), mkChunk (some ""), mkChunk (some "b")] =
      ([{ index := 0, content := "a" }], .emptyDelta) := by
  refine ⟨?_, ?_, rfl⟩
  · intro chunks
    induction chunks with
    | nil => rfl
    | cons c rest ih =>
        simp only [asyncConsume, syncConsume]
        cases h : build_chunk c <;> simp [ih]
  · intro c rest h
    simp [LiteLLMStreamingAIResponse.anext, h]

/-- C1 amended-claim witness: the `StopIteration` → `StopAsyncIteration`
conversion observed at a concrete empty-delta chunk. -/
theorem async_consume_matches_sync_consume_witness :
    (LiteLLMStreamingAIResponse.anext ⟨[mkChunk (some "")]⟩).1 =
      .stopAsyncIteration ∧
    asyncConsume [mkChunk none] = syncConsume [mkChunk none] :=
  ⟨async_consume_matches_sync_consume.2.1 (mkChunk (some "")) [] rfl,
   async_consume_matches_sync_consume.1 [mkChunk none]⟩

/-- C2: a `__next__` call on a chunk whose first choice has empty or
absent delta content raises `StopIteration`; on a chunk whose first choice
has non-empty delta content it yields the part `{index, content}` taken
from that first choice.  In both cases the cursor advances by one chunk. -/
theorem next_stops_on_falsy_delta_and_yields_part_otherwise
    (c : RawStreamChunk) (rest : List RawStreamChunk)
    (choice : StreamingChoices) (tl : List StreamingChoices)
    (hc : c.choices = choice :: tl) :
    ((choice.delta.content = none ∨ choice.delta.content = some "") →
      LiteLLMStreamingAIResponse.next ⟨c :: rest⟩ = (.stopIteration, ⟨rest⟩)) ∧
    (∀ s : String, choice.delta.content = some s → s ≠ "" →
      LiteLLMStreamingAIResponse.next ⟨c :: rest⟩ =
        (.part { index := choice.index, content := s }, ⟨rest⟩)) := by
  constructor
  · rintro (h | h) <;>
      simp [LiteLLMStreamingAIResponse.next, build_chunk, hc, h]
  · intro s hs hne
    simp [LiteLLMStreamingAIResponse.next, build_chunk, hc, hs, hne]

/-- C2 witness: an absent-content chunk raises `StopIteration`; a chunk
with delta content "hi" on choice index 0 yields the part `{0, "hi"}`. -/
theorem next_stops_on_falsy_delta_and_yields_part_otherwise_witness :
    LiteLLMStreamingAIResponse.next ⟨[mkChunk none, mkChunk (some "hi")]⟩ =
      (.stopIteration, ⟨[mkChunk (some "hi")]⟩) ∧
    LiteLLMStreamingAIResponse.next ⟨[mkChunk (some "hi")]⟩ =
      (.part { index := 0, content := "hi" }, ⟨[]⟩) :=
  ⟨(next_stops_on_falsy_delta_and_yields_part_otherwise (mkChunk none)
      [mkChunk (some "hi")] { index := 0, delta := { content := none } } []
      rfl).1 (Or.inl rfl),
   (next_stops_on_falsy_delta_and_yields_part_otherwise (mkChunk (some "hi"))
      [] { index := 0, delta := { content := some "hi" } } [] rfl).2 "hi" rfl
      (by decide)⟩

/-- C10: the `StopIteration` raised on an empty/absent delta is not
sticky: the call that raises it still advances the shared cursor past the
empty-delta chunk, and a subsequent `__next__` call on the same instance
processes the following raw chunk and can yield a further part. -/
theorem empty_delta_stop_iteration_not_sticky
    (c c' : RawStreamChunk) (rest : List RawStreamChunk)
    (choice : StreamingChoices) (tl : List StreamingChoices)
    (p : AIResponseStreamingPart)
    (hc : c.choices = choice :: tl)
    (hempty : choice.delta.content = none ∨ choice.delta.content = some "")
    (hp : build_chunk c' = .part p) :
    LiteLLMStreamingAIResponse.next ⟨c :: c' :: rest⟩ =
      (.stopIteration, ⟨c' :: rest⟩) ∧
    LiteLLMStreamingAIResponse.next ⟨c' :: rest⟩ = (.part p, ⟨rest⟩) := by
  constructor
  · rcases hempty with h | h <;>
      simp [LiteLLMStreamingAIResponse.next, build_chunk, hc, h]
  · simp [LiteLLMStreamingAIResponse.next, hp]

/-- C10 witness: on the chunk stream with deltas "", "b", the first
`__next__` raises `StopIteration` and the second yields the part
`{0, "b"}`. -/
theorem empty_delta_stop_iteration_not_sticky_witness :
    LiteLLMStreamingAIResponse.next ⟨[mkChunk (some ""), mkChunk (some "b")]⟩ =
      (.stopIteration, ⟨[mkChunk (some "b")]⟩) ∧
    LiteLLMStreamingAIResponse.next ⟨[mkChunk (some "b")]⟩ =
      (.part { index := 0, content := "b" }, ⟨[]⟩) :=
  empty_delta_stop_iteration_not_sticky (mkChunk (some ""))
    (mkChunk (some "b")) [] { index := 0, delta := { content := some "" } }
    [] { index := 0, content := "b" } rfl (Or.inr rfl) (by decide)

/-! ## Theorems: dict merge (shared lemmas) -/

theorem dictLookup_append (l₁ l₂ : List (String × α)) (k : String) :
    dictLookup k (l₁ ++ l₂) =
      match dictLookup k l₁ with
      | some v => some v
      | none => dictLookup k l₂ := by
  induction l₁ with
  | nil => simp [dictLookup]
  | cons kv rest ih =>
      obtain ⟨k', v⟩ := kv
      simp only [List.cons_append, dictLookup]
      by_cases hk : k = k' <;> simp [hk, ih]

theorem dictLookup_map_override (a b : List (String × α)) (k : String) :
    dictLookup k (a.map (fun kv => (kv.1, (dictLookup kv.1 b).getD kv.2))) =
      (dictLookup k a).map (fun v => (dictLookup k b).getD v) := by
  induction a with
  | nil => simp [dictLookup]
  | cons kv rest ih =>
      obtain ⟨k', v⟩ := kv
      simp only [List.map_cons, dictLookup]
      by_cases hk : k = k'
      · subst hk
        simp [dictLookup]
      · simp [hk, ih]

theorem dictLookup_filter_not_in (a b : List (String × α)) (k : String)
    (h : dictLookup k a = none) :
    dictLookup k (b.filter (fun kv => (dictLookup kv.1 a).isNone)) =
      dictLookup k b := by
  induction b with
  | nil => simp
  | cons kv rest ih =>
      obtain ⟨k', v⟩ := kv
      simp only [List.filter_cons]
      by_cases hk : k = k'
      · subst hk
        have hkeep : (dictLookup k a).isNone = true := by simp [h]
        simp [hkeep, dictLookup]
      · split <;> simp [dictLookup, hk, ih]

theorem dictLookup_dict_merge (a b : List (String × α)) (k : String) :
    dictLookup k (dict_merge a b) =
      match dictLookup k b with
      | some v => some v
      | none => dictLookup k a := by
  rw [dict_merge, dictLookup_append, dictLookup_map_override]
  cases ha : dictLookup k a with
  | none =>
      simp only [Option.map_none']
      rw [dictLookup_filter_not_in a b k ha]
      cases hb : dictLookup k b <;> simp
  | some v =>
      cases hb : dictLookup k b <;> simp [hb]

/-! ## Theorems: chat backend -/

/-- C5: for every chat call (blocking or non-blocking), the parameters
passed to the provider are the shallow merge of the configured defaults
and the per-call overrides, override keys winning on every conflict; with
defaults `{"temperature": 0.2}` and override `temperature=0.9`, the
effective temperature is 0.9. -/
theorem chat_parameters_are_shallow_merge_override_wins :
    (∀ (α : Type) (self : LiteLLMChatBackend α)
       (provider : ProviderCall α → RawChatResponse)
       (messages : List ChatMessage) (stream : Bool)
       (kwargs : List (String × α)) (k : String),
      dictLookup k (self.chat provider messages stream kwargs).2.1.parameters =
        (match dictLookup k kwargs with
         | some v => some v
         | none => dictLookup k self.config.default_parameters) ∧
      dictLookup k (self.achat provider messages stream kwargs).2.1.parameters =
        (match dictLookup k kwargs with
         | some v => some v
         | none => dictLookup k self.config.default_parameters)) ∧
    dictLookup "temperature"
        ((LiteLLMChatBackend.chat
            ⟨{ model_id := "demo-model",
               default_parameters := [("temperature", (2 : ℚ)/10)] }⟩
            (fun _ => RawChatResponse.modelResponse [])
            [{ role := "user", content := "hi" }] false
            [("temperature", (9 : ℚ)/10)]).2.1.parameters) =
      some ((9 : ℚ)/10) := by
  constructor
  · intro α self provider messages stream kwargs k
    exact ⟨dictLookup_dict_merge _ _ _, dictLookup_dict_merge _ _ _⟩
  · rw [LiteLLMChatBackend.chat, dictLookup_dict_merge]
    simp [dictLookup]

/-- C9: a chat call (blocking or non-blocking) leaves the backend's
configuration unchanged: the backend state after the call is the state
before it, in particular `model_id` and the `default_parameters` mapping
are identical — the parameter merge builds a fresh mapping. -/
theorem chat_does_not_mutate_config :
    ∀ (α : Type) (self : LiteLLMChatBackend α)
      (provider : ProviderCall α → RawChatResponse)
      (messages : List ChatMessage) (stream : Bool)
      (kwargs : List (String × α)),
      (self.chat provider messages stream kwargs).2.2 = self ∧
      (self.chat provider messages stream kwargs).2.2.config.model_id =
        self.config.model_id ∧
      (self.chat provider messages stream kwargs).2.2.config.default_parameters =
        self.config.default_parameters ∧
      (self.achat provider messages stream kwargs).2.2 = self ∧
      (self.achat provider messages stream kwargs).2.2.config.model_id =
        self.config.model_id ∧
      (self.achat provider messages stream kwargs).2.2.config.default_parameters =
        self.config.default_parameters :=
  fun _ _ _ _ _ _ => ⟨rfl, rfl, rfl, rfl, rfl, rfl⟩

/-- C4: `build_ai_response` returns a streaming response exactly when the
raw result is the dedicated stream wrapper type or a plain generator, and
on any other (completed) raw response returns an `AIResponse` whose
candidates are, in order, the message contents of every choice, so the
candidate count equals the reported choice count. -/
theorem build_ai_response_classifies_and_extracts :
    (∀ raw : RawChatResponse,
      (build_ai_response raw).isStreaming = isStreamingShape raw) ∧
    (∀ raw : RawChatResponse,
      ((build_ai_response raw).isStreaming = true ↔
        ∃ chunks, raw = .customStreamWrapper chunks ∨ raw = .generator chunks)) ∧
    (∀ choices : List ChatChoice,
      build_ai_response (.modelResponse choices) =
        .completed ⟨choices.map (fun choice => choice.message.content)⟩ ∧
      (choices.map (fun choice => choice.message.content)).length =
        choices.length) := by
  refine ⟨fun raw => ?_, fun raw => ?_, fun choices => ⟨rfl, by simp⟩⟩
  · cases raw <;> rfl
  · cases raw <;> simp [build_ai_response, BuiltAIResponse.isStreaming]

/-! ## Theorems: embedding backend -/

/-- C3 counterexample: the provider call succeeds (a well-typed embedding
response, so the source's `isinstance` assertion passes) and returns one
vector for two inputs; `embed` silently returns that single vector — the
result length differs from the input count and no Provider Contract Error
is raised. -/
theorem embed_silently_returns_wrong_length_counterexample :
    LiteLLMEmbeddingBackend.embed oneVectorProvider ["x", "y"] = [[42]] ∧
    (LiteLLMEmbeddingBackend.embed oneVectorProvider ["x", "y"]).length ≠
      (["x", "y"] : List String).length := by
  exact ⟨rfl, by decide⟩

/-- C3 (amended): `embed` and `aembed` return exactly the vectors of the
provider's response, so the result length always equals the number of
vectors the provider returned; this equals the number of inputs whenever
the provider returns one vector per input, but the count is never
validated — a mismatch is silently passed through (no Provider Contract
Error; the only shape check is the response-type assertion). -/
theorem embed_length_is_provider_data_length :
    (∀ (α : Type) (provider : List String → EmbeddingResponse α)
       (inputs : List String),
      (LiteLLMEmbeddingBackend.embed provider inputs).length =
        (provider inputs).data.length ∧
      (LiteLLMEmbeddingBackend.aembed provider inputs).length =
        (provider inputs).data.length ∧
      ((provider inputs).data.length = inputs.length →
        (LiteLLMEmbeddingBackend.embed provider inputs).length =
          inputs.length)) ∧
    LiteLLMEmbeddingBackend.embed oneVectorProvider ["x", "y"] = [[42]] := by
  refine ⟨fun α provider inputs => ⟨?_, ?_, fun h => ?_⟩, rfl⟩
  · simp [LiteLLMEmbeddingBackend.embed]
  · simp [LiteLLMEmbeddingBackend.aembed]
  · simp [LiteLLMEmbeddingBackend.embed, h]

/-- C3 amended-claim witness: with a provider returning one vector per
input for two concrete inputs, the result length is 2. -/
theorem embed_length_is_provider_data_length_witness :
    (LiteLLMEmbeddingBackend.embed
        (fun ins =>
          ({ data := ins.map (fun _ => { embedding := [0] }) } :
            EmbeddingResponse Int))
        ["x", "y"]).length = (["x", "y"] : List String).length :=
  (embed_length_is_provider_data_length.1 Int
      (fun ins => { data := ins.map (fun _ => { embedding := [0] }) })
      ["x", "y"]).2.2 (by decide)

/-- C8: when the provider returns one vector per input (its data is the
image of the inputs under the provider's embedding function), `embed`
yields exactly one vector per input in input order, `aembed` returns the
same vectors materialized, and empty input yields an empty result. -/
theorem embed_is_order_preserving
    (α : Type) (f : String → List α)
    (provider : List String → EmbeddingResponse α) (inputs : List String)
    (h : (provider inputs).data = inputs.map (fun s => { embedding := f s })) :
    LiteLLMEmbeddingBackend.embed provider inputs = inputs.map f ∧
    LiteLLMEmbeddingBackend.aembed provider inputs =
      LiteLLMEmbeddingBackend.embed provider inputs ∧
    (inputs = [] → LiteLLMEmbeddingBackend.embed provider inputs = []) := by
  refine ⟨?_, rfl, fun he => ?_⟩
  · simp [LiteLLMEmbeddingBackend.embed, h]
  · subst he
    simp [LiteLLMEmbeddingBackend.embed, h]

/-- C8 witness: a concrete conforming provider on inputs "a", "bc" yields
the two vectors in input order. -/
theorem embed_is_order_preserving_witness :
    LiteLLMEmbeddingBackend.embed
        (fun ins =>
          ({ data := ins.map (fun s => { embedding := [s.length] }) } :
            EmbeddingResponse Nat))
        ["a", "bc"] = [[1], [2]] :=
  ((embed_is_order_preserving Nat (fun s => [s.length])
      (fun ins => { data := ins.map (fun s => { embedding := [s.length] }) })
      ["a", "bc"] rfl).1).trans (by decide)

/-! ## Theorems: backend configuration resolution -/

/-- C6: resolving the token limit (and, for embedding configurations, the
output dimensions) from provider metadata raises the Configuration Error
exactly when the provider has no metadata for the model or the relevant
value is absent or falsy; otherwise it returns exactly the
provider-reported value, never a substituted default. -/
theorem config_resolution_fails_on_missing_metadata
    (get_model_info : String → Option ModelInfo) (model_id : String) :
    (get_token_limit get_model_info model_id = .improperlyConfigured ↔
      ((get_model_info model_id).bind ModelInfo.max_input_tokens = none ∨
       (get_model_info model_id).bind ModelInfo.max_input_tokens = some 0)) ∧
    (∀ v : Nat, get_token_limit get_model_info model_id = .ok v ↔
      ((get_model_info model_id).bind ModelInfo.max_input_tokens = some v ∧
        v ≠ 0)) ∧
    (get_embedding_output_dimensions get_model_info model_id =
        .improperlyConfigured ↔
      ((get_model_info model_id).bind ModelInfo.output_vector_size = none ∨
       (get_model_info model_id).bind ModelInfo.output_vector_size = some 0)) ∧
    (∀ v : Nat,
      get_embedding_output_dimensions get_model_info model_id = .ok v ↔
      ((get_model_info model_id).bind ModelInfo.output_vector_size = some v ∧
        v ≠ 0)) := by
  cases hm : get_model_info model_id with
  | none =>
      simp [get_token_limit, get_embedding_output_dimensions, hm]
  | some info =>
      refine ⟨?_, fun v => ?_, ?_, fun v => ?_⟩
      · cases ht : info.max_input_tokens with
        | none => simp [get_token_limit, hm, ht]
        | some w =>
            by_cases hw : w = 0 <;> simp [get_token_limit, hm, ht, hw]
      · cases ht : info.max_input_tokens with
        | none => simp [get_token_limit, hm, ht]
        | some w =>
            simp only [get_token_limit, hm, ht, Option.some_bind]
            by_cases hw : w = 0
            · subst hw
              simp only [if_pos rfl]
              constructor
              · intro h
                exact ConfigResolution.noConfusion h
              · rintro ⟨h, hv⟩
                injection h with h
                exact absurd h.symm hv
            · simp only [if_neg hw]
              constructor
              · intro h
                injection h with h
                subst h
                exact ⟨rfl, hw⟩
              · rintro ⟨h, _⟩
                injection h with h
                subst h
                rfl
      · cases ht : info.output_vector_size with
        | none => simp [get_embedding_output_dimensions, hm, ht]
        | some w =>
            by_cases hw : w = 0 <;>
              simp [get_embedding_output_dimensions, hm, ht, hw]
      · cases ht : info.output_vector_size with
        | none => simp [get_embedding_output_dimensions, hm, ht]
        | some w =>
            simp only [get_embedding_output_dimensions, hm, ht,
              Option.some_bind]
            by_cases hw : w = 0
            · subst hw
              simp only [if_pos rfl]
              constructor
              · intro h
                exact ConfigResolution.noConfusion h
              · rintro ⟨h, hv⟩
                injection h with h
                exact absurd h.symm hv
            · simp only [if_neg hw]
              constructor
              · intro h
                injection h with h
                subst h
                exact ⟨rfl, hw⟩
              · rintro ⟨h, _⟩
                injection h with h
                subst h
                rfl

/-- C6 witness: a provider with no metadata yields the error for both
resolutions; a provider reporting 4096 input tokens and 1536 output
dimensions yields exactly those values. -/
theorem config_resolution_fails_on_missing_metadata_witness :
    get_token_limit (fun _ => none) "unknown-model" = .improperlyConfigured ∧
    get_embedding_output_dimensions (fun _ => none) "unknown-model" =
      .improperlyConfigured ∧
    get_token_limit
        (fun _ => some { max_input_tokens := some 4096,
                         output_vector_size := some 1536 }) "m" = .ok 4096 ∧
    get_embedding_output_dimensions
        (fun _ => some { max_input_tokens := some 4096,
                         output_vector_size := some 1536 }) "m" = .ok 1536 :=
  ⟨(config_resolution_fails_on_missing_metadata (fun _ => none)
      "unknown-model").1.mpr (Or.inl rfl),
   (config_resolution_fails_on_missing_metadata (fun _ => none)
      "unknown-model").2.2.1.mpr (Or.inl rfl),
   ((config_resolution_fails_on_missing_metadata
      (fun _ => some { max_input_tokens := some 4096,
                       output_vector_size := some 1536 }) "m").2.1
      4096).mpr ⟨rfl, by decide⟩,
   ((config_resolution_fails_on_missing_metadata
      (fun _ => some { max_input_tokens := some 4096,
                       output_vector_size := some 1536 }) "m").2.2.2
      1536).mpr ⟨rfl, by decide⟩⟩

/-! ## Theorems: identity resolver -/

theorem get_base_concrete_model_eq_getLastD (get_parent_list : α → List α)
    (m : α) :
    get_base_concrete_model get_parent_list m =
      ((get_parent_list m).getLast?).getD m := by
  unfold get_base_concrete_model
  cases h : get_parent_list m with
  | nil => rfl
  | cons p ps =>
      rw [List.getLast?_eq_getLast_of_ne_nil (List.cons_ne_nil p ps)]
      rfl

/-- C7: the identity resolver returns the most-base stored ancestor (the
last element of the parent list) when the parent list is non-empty and the
type itself when it has no stored parents; it is deterministic, and any
two types whose parent chains end in the same root resolve to the same
canonical type. -/
theorem get_base_concrete_model_resolves_root
    (α : Type) (get_parent_list : α → List α) (m m' : α) :
    (get_parent_list m = [] →
      get_base_concrete_model get_parent_list m = m) ∧
    (∀ r : α, (get_parent_list m).getLast? = some r →
      get_base_concrete_model get_parent_list m = r) ∧
    (get_base_concrete_model get_parent_list m =
      get_base_concrete_model get_parent_list m) ∧
    ((get_parent_list m).getLast? = (get_parent_list m').getLast? →
      get_parent_list m ≠ [] →
      get_base_concrete_model get_parent_list m =
        get_base_concrete_model get_parent_list m') := by
  refine ⟨fun h => ?_, fun r h => ?_, rfl, fun heq hne => ?_⟩
  · rw [get_base_concrete_model_eq_getLastD, h]
    rfl
  · rw [get_base_concrete_model_eq_getLastD, h]
    rfl
  · rw [get_base_concrete_model_eq_getLastD,
      get_base_concrete_model_eq_getLastD, ← heq,
      List.getLast?_eq_getLast_of_ne_nil hne]
    rfl

/-- C7 witness: both page subtypes resolve to `Page`, a parentless model
resolves to itself, and the two subtypes resolve to the same canonical
type. -/
theorem get_base_concrete_model_resolves_root_witness :
    get_base_concrete_model pageParents "BookPage" = "Page" ∧
    get_base_concrete_model pageParents "FilmPage" = "Page" ∧
    get_base_concrete_model pageParents "VideoGame" = "VideoGame" ∧
    get_base_concrete_model pageParents "BookPage" =
      get_base_concrete_model pageParents "FilmPage" :=
  ⟨(get_base_concrete_model_resolves_root String pageParents "BookPage"
      "BookPage").2.1 "Page" (by decide),
   (get_base_concrete_model_resolves_root String pageParents "FilmPage"
      "FilmPage").2.1 "Page" (by decide),
   (get_base_concrete_model_resolves_root String pageParents "VideoGame"
      "VideoGame").1 (by decide),
   (get_base_concrete_model_resolves_root String pageParents "BookPage"
      "FilmPage").2.2.2 (by decide) (by decide)⟩

end WagtailVectorIndex
